import Mathlib

/-!
Verification development for the Duolingo Practice Hub vocabulary scraper.

The repository has two parallel implementations of the collection engine:
* `scraping/duolingo_scraper.py` (the "scraper" module), whose accumulator is a
  Python `Dict[str, str]` keyed by the target-language term;
* `scripts/scrape_duolingo_words.py` (the "scripts" module), whose accumulator is
  a `Dict[Tuple[str, str], None]` keyed by the full (word, translation) pair.

Below, each Python function is embedded as an executable Lean definition; Python
dicts are modelled as association lists in insertion order (`d[k] = v` replaces
the value at the existing position when the key is present and appends otherwise,
exactly like CPython dicts).
-/

/-- A term pair: (target-language term, english term). -/
abbrev Pair := String × String

/-- `d[k] = v` on a Python `Dict[str, str]` keyed by the first component:
if `k` is already a key, its value is replaced in place; otherwise `(k, v)`
is appended.  Models the assignment `words[target] = english` in
`_scrape_visible_words` (scraping/duolingo_scraper.py). -/
def dictInsert (d : List Pair) (k v : String) : List Pair :=
  if d.any (fun kv => kv.1 == k) then
    d.map (fun kv => if kv.1 == k then (k, v) else kv)
  else
    d ++ [(k, v)]

/-- `collected.update(current)` on a `Dict[str, str]`: fold `dictInsert`
over the delta in its iteration order (scraping/duolingo_scraper.py line 206). -/
def dictUpdate (d : List Pair) (delta : List Pair) : List Pair :=
  delta.foldl (fun acc kv => dictInsert acc kv.1 kv.2) d

/-- `results[(word, trans)] = None` on a `Dict[Tuple[str, str], None]`: the key is
the whole pair; inserting an existing key leaves the dict unchanged (the payload
is always `None`), a new key is appended.  Models the accumulator of
scripts/scrape_duolingo_words.py. -/
def pairInsert (d : List Pair) (kv : Pair) : List Pair :=
  if d.contains kv then d else d ++ [kv]

/-- `collected.update(visible)` on the pair-keyed dict
(scripts/scrape_duolingo_words.py line 157). -/
def pairUpdate (d : List Pair) (delta : List Pair) : List Pair :=
  delta.foldl pairInsert d

/-- Python's `str.strip()` on a char list: drop whitespace from both ends. -/
def stripChars (l : List Char) : List Char :=
  ((l.dropWhile Char.isWhitespace).reverse.dropWhile Char.isWhitespace).reverse

/-- Python's `str.strip()`. -/
def pyStrip (s : String) : String :=
  ⟨stripChars s.toList⟩

/-! ### Expected-count parsing -/

/-- `Char` list of a string with every character lower-cased, for Python's
`text.lower()`. -/
def lowerChars (s : String) : List Char :=
  s.toList.map Char.toLower

/-- Does `l` start with `pat`? -/
def startsWithChars : List Char → List Char → Bool
  | [], _ => true
  | _ :: _, [] => false
  | a :: as, b :: bs => a == b && startsWithChars as bs

/-- Does `l` contain `pat` as a contiguous infix?  Models Python's
`pat in s` substring test. -/
def hasInfixChars (pat : List Char) : List Char → Bool
  | [] => startsWithChars pat []
  | c :: rest => startsWithChars pat (c :: rest) || hasInfixChars pat rest

/-- Python `"pat" in text.lower()`. -/
def containsLower (text : String) (pat : String) : Bool :=
  hasInfixChars pat.toList (lowerChars text)

/-- Decimal value of a digit run. -/
def parseDigits (l : List Char) : Nat :=
  l.foldl (fun n c => n * 10 + (c.toNat - 48)) 0

/-- Drop characters until the first decimal digit; `none` when the string has no
digit.  This is where both regex searches (`\d+` and `\d[\d,]*`) anchor their
first match. -/
def dropToDigit : List Char → Option (List Char)
  | [] => none
  | c :: rest => if c.isDigit then some (c :: rest) else dropToDigit rest

/-- `re.search(r"(\d+)", text)` followed by `int(...)`: the first maximal run of
decimal digits (scraping/duolingo_scraper.py line 93). -/
def firstDigitRun (s : String) : Option Nat :=
  match dropToDigit s.toList with
  | none => none
  | some l => some (parseDigits (l.takeWhile Char.isDigit))

/-- `parse_expected_count` of scripts/scrape_duolingo_words.py:
`re.search(r"(\d[\d,]*)", text)`, commas removed before `int(...)`;
returns `-1` when the text has no digit. -/
def parse_expected_count (s : String) : Int :=
  match dropToDigit s.toList with
  | none => -1
  | some l =>
      ((parseDigits ((l.takeWhile (fun c => c.isDigit || c == ',')).filter
        Char.isDigit)) : Int)

/-- `_get_expected_word_count` of scraping/duolingo_scraper.py, applied to the
list of `h2` text contents in page order (`None` text is the empty string):
skip empty texts; for a text containing "word" (case-insensitively) return its
first digit run when one exists, else keep scanning; when no header qualifies,
raise `RuntimeError` (modelled as `Except.error` carrying the message). -/
def get_expected_word_count : List String → Except String Nat
  | [] => .error
      "Could not find a header with the total number of words (e.g. '427 words')."
  | t :: rest =>
      if t != "" && containsLower t "word" then
        match firstDigitRun t with
        | some v => .ok v
        | none => get_expected_word_count rest
      else get_expected_word_count rest

/-- `get_expected_count` of scripts/scrape_duolingo_words.py, applied to the
list of `h2` inner texts in page order: Playwright's
`locator("h2", has_text="words")` keeps the headings whose text contains
"words" case-insensitively; `.first` takes the first such heading, whose text
is stripped and fed to `parse_expected_count`; any failure (no matching
heading) yields `-1`. -/
def get_expected_count (headers : List String) : Int :=
  match headers.find? (fun t => containsLower t "words") with
  | none => -1
  | some t => parse_expected_count (pyStrip t)

/-! ### Convergence controller loops

Both collection loops interact with a live page; we model one loop round's
environment-dependent observations (the pairs currently rendered, and whether
the reveal-more driver managed to perform an action) as an input record, and the
loop as a function over the finite list of such observations.  An empty input
list means the trace ran out before the loop decided to stop
(`StopReason.outOfInput`); the real loops run forever on such traces. -/

/-- How a run of a collection loop ended. -/
inductive StopReason where
  /-- `break` after reaching the expected count. -/
  | done
  /-- `break` after the stagnation counter reached 3. -/
  | stalled
  /-- `break` because the reveal-more driver reported no action
  (only scraping/duolingo_scraper.py has this exit). -/
  | noAction
  /-- The modelled observation trace was exhausted. -/
  | outOfInput
deriving DecidableEq, Repr

/-- One round's observations for the scripts loop: the currently rendered pairs
and the value returned by `click_more_if_possible`. -/
structure RoundInput where
  visible : List Pair
  loadedMore : Bool
deriving Repr

/-- Outcome of the scripts loop, instrumented with the number of rounds
executed, the number of `click_more_if_possible` invocations, and the number of
courtesy settles (the extra `scrollTo` + `wait_for_timeout(1500)` performed when
the driver reported no action). -/
structure ScriptResult where
  collected : List Pair
  reason : StopReason
  rounds : Nat
  driverCalls : Nat
  settles : Nat
deriving DecidableEq, Repr

/-- The `while True` collection loop of `main` in
scripts/scrape_duolingo_words.py (lines 154-183).  Round order, as in the
source: extract and merge; break `done` when the expected count is known
(`!= -1`) and reached; invoke the driver; if it reported no action, perform the
extra settle; increment the stagnation counter when the round added nothing,
else reset it; break `stalled` when the counter reaches 3. -/
def script_main_loop (expected : Int) (collected : List Pair) (stagnant : Nat) :
    List RoundInput → ScriptResult
  | [] => ⟨collected, .outOfInput, 0, 0, 0⟩
  | inp :: rest =>
      let after := pairUpdate collected inp.visible
      if expected ≠ -1 ∧ expected ≤ (after.length : Int) then
        ⟨after, .done, 1, 0, 0⟩
      else
        let settle : Nat := if inp.loadedMore then 0 else 1
        let stagnant' := if after.length = collected.length then stagnant + 1 else 0
        if 3 ≤ stagnant' then ⟨after, .stalled, 1, 1, settle⟩
        else
          let r := script_main_loop expected after stagnant' rest
          ⟨r.collected, r.reason, r.rounds + 1, r.driverCalls + 1, r.settles + settle⟩

/-- A full scripts run: the accumulator starts empty and the stagnation counter
at zero (scripts/scrape_duolingo_words.py lines 151-152). -/
def script_main (expected : Int) (inputs : List RoundInput) : ScriptResult :=
  script_main_loop expected [] 0 inputs

/-- One round's observations for the scraper loop: the currently rendered pairs
and the value returned by `_click_more_if_available`. -/
structure ScraperRound where
  visible : List Pair
  clicked : Bool
deriving Repr

/-- Outcome of the scraper loop, instrumented with the number of rounds
executed and the number of `_click_more_if_available` invocations. -/
structure ScraperResult where
  collected : List Pair
  reason : StopReason
  rounds : Nat
  driverCalls : Nat
deriving DecidableEq, Repr

/-- The `while True` collection loop of `scrape_duolingo_words` in
scraping/duolingo_scraper.py (lines 203-226).  Round order, as in the source:
extract and merge into the primary-keyed dict; break `done` when
`len(collected) >= expected_total`; increment the stagnation counter when
`len(collected) == last_count`, else reset it; set `last_count`; break
`stalled` when the counter reaches 3; invoke the driver and break `noAction`
when it reports no click. -/
def scrape_words_loop (expected : Nat) (collected : List Pair) (lastCount : Int)
    (stagnation : Nat) : List ScraperRound → ScraperResult
  | [] => ⟨collected, .outOfInput, 0, 0⟩
  | inp :: rest =>
      let after := dictUpdate collected inp.visible
      if expected ≤ after.length then ⟨after, .done, 1, 0⟩
      else
        let stagnation' := if (after.length : Int) = lastCount then stagnation + 1 else 0
        if 3 ≤ stagnation' then ⟨after, .stalled, 1, 0⟩
        else if inp.clicked then
          let r := scrape_words_loop expected after (after.length : Int) stagnation' rest
          ⟨r.collected, r.reason, r.rounds + 1, r.driverCalls + 1⟩
        else ⟨after, .noAction, 1, 1⟩

/-- A full scraper run: empty accumulator, `last_count = -1`, zero stagnation
(scraping/duolingo_scraper.py lines 199-201). -/
def scrape_duolingo_words (expected : Nat) (inputs : List ScraperRound) : ScraperResult :=
  scrape_words_loop expected [] (-1) 0 inputs

/-! ### Document model and structural extraction

A rendered document is a rose tree of elements carrying a tag, an optional `id`
attribute, a list of CSS class names and some text.  The class list is carried
only so that independence from class names can be stated; no extraction
function below reads it.  (`Elem`/`ElemList` are a mutual pair rather than
`Elem`/`List Elem` so that all traversals are plain structural recursion.) -/

mutual
/-- A rendered DOM element. -/
inductive Elem where
  | mk (tag : String) (idAttr : Option String) (classes : List String)
      (text : String) (children : ElemList)
deriving Repr
/-- A forest of sibling elements, in document order. -/
inductive ElemList where
  | nil
  | cons (head : Elem) (tail : ElemList)
deriving Repr
end

/-- Build a forest from a list. -/
def ElemList.ofList : List Elem → ElemList
  | [] => .nil
  | e :: es => .cons e (ElemList.ofList es)

/-- Flatten a forest back to a list. -/
def ElemList.toList : ElemList → List Elem
  | .nil => []
  | .cons e es => e :: ElemList.toList es

/-- The element's tag. -/
def Elem.tag : Elem → String
  | .mk t _ _ _ _ => t

/-- The element's `id` attribute. -/
def Elem.idAttr : Elem → Option String
  | .mk _ i _ _ _ => i

/-- The element's CSS classes. -/
def Elem.classes : Elem → List String
  | .mk _ _ cl _ _ => cl

/-- The element's children, in document order. -/
def Elem.childList : Elem → List Elem
  | .mk _ _ _ _ ch => ch.toList

mutual
/-- Concatenated text of an element and its descendants, modelling both
Playwright's `text_content()` and `inner_text()` for the small leaf elements
the extractors read. -/
def textContent : Elem → String
  | .mk _ _ _ x ch => x ++ textContentList ch
/-- Concatenated text of a forest. -/
def textContentList : ElemList → String
  | .nil => ""
  | .cons e es => textContent e ++ textContentList es
end

mutual
/-- First element with the given tag in the subtree rooted at `e` (including
`e` itself), in document order. -/
def findTagE (tag : String) : Elem → Option Elem
  | .mk t i cl x ch => if t == tag then some (.mk t i cl x ch) else findTagL tag ch
/-- First element with the given tag in a forest, in document order. -/
def findTagL (tag : String) : ElemList → Option Elem
  | .nil => none
  | .cons e es =>
      match findTagE tag e with
      | some r => some r
      | none => findTagL tag es
end

/-- `locator(tag).first` under the element `e`: first descendant with the tag,
in document order (the container itself is not a candidate). -/
def firstDesc (tag : String) (e : Elem) : Option Elem :=
  match e with
  | .mk _ _ _ _ ch => findTagL tag ch

mutual
/-- All elements of the subtree rooted at `e` (including `e`) whose `id`
attribute equals `idv`, in document order; models the XPath step `//*[@id=idv]`. -/
def findByIdE (idv : String) : Elem → List Elem
  | .mk t i cl x ch =>
      (if i == some idv then [Elem.mk t i cl x ch] else []) ++ findByIdL idv ch
/-- `//*[@id=idv]` over a forest. -/
def findByIdL (idv : String) : ElemList → List Elem
  | .nil => []
  | .cons e es => findByIdE idv e ++ findByIdL idv es
end

/-- The children of `e` with the given tag, in order: XPath child step `tag`. -/
def childrenTag (tag : String) (e : Elem) : List Elem :=
  e.childList.filter (fun c => c.tag == tag)

/-- XPath indexed child step `tag[n]` (1-based): the `n`-th child with that
tag, or nothing. -/
def nthChildTag (tag : String) (n : Nat) (e : Elem) : List Elem :=
  match (childrenTag tag e).drop (n - 1) with
  | [] => []
  | x :: _ => [x]

/-- Apply an XPath step to every node of the current node-set. -/
def stepAll (f : Elem → List Elem) (es : List Elem) : List Elem :=
  es.flatMap f

/-- The container node-set selected by the absolute XPath of
`_scrape_visible_words` (scraping/duolingo_scraper.py line 118):
`//*[@id="root"]/div[2]/div/div[3]/div/div[2]/div/section[2]/ul/li/div/div`. -/
def scraperContainers (doc : Elem) : List Elem :=
  stepAll (childrenTag "div") <|
  stepAll (childrenTag "div") <|
  stepAll (childrenTag "li") <|
  stepAll (childrenTag "ul") <|
  stepAll (nthChildTag "section" 2) <|
  stepAll (childrenTag "div") <|
  stepAll (nthChildTag "div" 2) <|
  stepAll (childrenTag "div") <|
  stepAll (nthChildTag "div" 3) <|
  stepAll (childrenTag "div") <|
  stepAll (nthChildTag "div" 2) <|
  findByIdE "root" doc

/-- The loop body of `_scrape_visible_words` (scraping/duolingo_scraper.py
lines 122-131): read the text of the container's first `h3` and first `p`
descendants; skip it when either locator is empty or its text is empty
(`if not h3 or not p`); strip both texts and store `words[target] = english`
when both are non-empty. -/
def scrapeItemStep (words : List Pair) (c : Elem) : List Pair :=
  match firstDesc "h3" c, firstDesc "p" c with
  | some h, some p =>
      if textContent h == "" || textContent p == "" then words
      else
        let target := pyStrip (textContent h)
        let english := pyStrip (textContent p)
        if target != "" && english != "" then dictInsert words target english
        else words
  | _, _ => words

/-- The whole extraction pass of `_scrape_visible_words`. -/
def scrape_visible_words (doc : Elem) : List Pair :=
  (scraperContainers doc).foldl scrapeItemStep []

mutual
/-- CSS matching of `section ul li` on the subtree rooted at `e`: collect, in
document order, every `li` that has a `ul` ancestor which itself has a
`section` ancestor.  `sawSection` records whether some ancestor of `e` is a
`section`; `sawUl` whether some ancestor is a `ul` below a `section`. -/
def matchSectionUlLiE (sawSection sawUl : Bool) : Elem → List Elem
  | .mk t i cl x ch =>
      (if t == "li" && sawUl then [Elem.mk t i cl x ch] else []) ++
        matchSectionUlLiL (sawSection || t == "section")
          (sawUl || (sawSection && t == "ul")) ch
/-- `section ul li` over a forest. -/
def matchSectionUlLiL (sawSection sawUl : Bool) : ElemList → List Elem
  | .nil => []
  | .cons e es =>
      matchSectionUlLiE sawSection sawUl e ++ matchSectionUlLiL sawSection sawUl es
end

/-- The loop body of `extract_visible_words`
(scripts/scrape_duolingo_words.py lines 44-57): read the inner text of the
matched li's first `h3` and first `p` descendants (a missing locator raises
and the item is skipped); strip both; keep the pair when both are non-empty. -/
def extractItemStep (results : List Pair) (li : Elem) : List Pair :=
  match firstDesc "h3" li, firstDesc "p" li with
  | some h, some p =>
      let word := pyStrip (textContent h)
      let trans := pyStrip (textContent p)
      if word != "" && trans != "" then pairInsert results (word, trans)
      else results
  | _, _ => results

/-- The whole extraction pass of `extract_visible_words`. -/
def extract_visible_words (doc : Elem) : List Pair :=
  (matchSectionUlLiE false false doc).foldl extractItemStep []

/-! ### Concrete documents

Two documents containing the same structurally matching word card
(`li > div > div > (h3, p)`, under a `ul` under a `section`); in `docAtPath`
the card sits exactly at the absolute path hard-coded in
scraping/duolingo_scraper.py, in `docMoved` it sits under the first `section`
instead of the second. -/

/-- Element with no id, no classes, no own text. -/
def el (tag : String) (ch : List Elem) : Elem :=
  .mk tag none [] "" (.ofList ch)

/-- Leaf element with text. -/
def elTxt (tag text : String) : Elem :=
  .mk tag none [] text .nil

/-- A word card: `li > div > div > (h3 "hola", p "hello")`. -/
def wordCard : Elem :=
  el "li" [el "div" [el "div" [elTxt "h3" "hola", elTxt "p" "hello"]]]

/-- The scaffolding between `#root` and the two sections, parameterised by the
two sections' contents. -/
def docScaffold (sec1 sec2 : List Elem) : Elem :=
  el "html" [Elem.mk "div" (some "root") [] "" (.ofList [
    el "div" [],
    el "div" [
      el "div" [
        el "div" [], el "div" [],
        el "div" [
          el "div" [
            el "div" [],
            el "div" [
              el "div" [
                el "section" sec1,
                el "section" sec2]]]]]]])]

/-- The card at the exact absolute XPath position (under `section[2]`). -/
def docAtPath : Elem :=
  docScaffold [] [el "ul" [wordCard]]

/-- The same card moved to the structurally equivalent position under
`section[1]`. -/
def docMoved : Elem :=
  docScaffold [el "ul" [wordCard]] []

mutual
/-- Rewrite every element's class list with `g`, leaving tags, ids, text and
structure unchanged; used to state that structural extraction is independent of
class names. -/
def mapClassesE (g : List String → List String) : Elem → Elem
  | .mk t i cl x ch => .mk t i (g cl) x (mapClassesL g ch)
/-- `mapClassesE` over a forest. -/
def mapClassesL (g : List String → List String) : ElemList → ElemList
  | .nil => .nil
  | .cons e es => .cons (mapClassesE g e) (mapClassesL g es)
end

/-! ### Flat-file output order

Python's `sorted()` on `(str, str)` tuples orders lexicographically: first
components compared as strings (by code point), ties broken by the second.
`sorted` is modelled as a stable insertion sort under that order; for the total
order below any correct sort produces the same row list. -/

/-- Python string `<` by code points, on char lists: a proper prefix is
smaller; otherwise the first differing position decides. -/
def strLtB : List Char → List Char → Bool
  | _, [] => false
  | [], _ :: _ => true
  | a :: as, b :: bs =>
      if a.toNat == b.toNat then strLtB as bs
      else decide (a.toNat < b.toNat)

/-- The tuple order used by `sorted(words.items())` and
`sorted(collected.keys())`: lexicographic, first components compared as Python
strings, ties broken by the second component. -/
def pairLeB (p q : Pair) : Bool :=
  strLtB p.1.toList q.1.toList ||
    (p.1.toList == q.1.toList &&
      (strLtB p.2.toList q.2.toList || p.2.toList == q.2.toList))

/-- `pairLeB` as a decidable relation for `List.insertionSort`. -/
def pairLe (p q : Pair) : Prop :=
  pairLeB p q = true

instance : DecidableRel pairLe := fun p q =>
  inferInstanceAs (Decidable (pairLeB p q = true))

/-- The rows emitted by `save_words_to_file` (scraping/duolingo_scraper.py
line 247): `sorted(words.items())`, one CSV row per dict entry, after the fixed
header row. -/
def save_words_to_file (words : List Pair) : List Pair :=
  words.insertionSort pairLe

/-- The records emitted by the JSONL writer of scripts/scrape_duolingo_words.py
(lines 186-188): `sorted(collected.keys())`, one JSON line per key. -/
def write_output_rows (collected : List Pair) : List Pair :=
  collected.insertionSort pairLe

/-! ### Relational-store writer

`save_words_to_database` (scraping/duolingo_scraper.py lines 254-318) runs on a
SQLAlchemy session created with `autocommit=False, autoflush=False`: queries see
only committed rows, `session.add` keeps a record pending until
`session.commit()`, and `session.close()` without a commit discards all pending
records.  We model the committed database as lists of language and term rows,
and a possible failure of a per-pair query/insert by the index at which the loop
raises. -/

/-- A committed `Term` row, with the fixed provenance and progress fields the
scraper writes. -/
structure TermRec where
  languageCode : String
  englishTerm : String
  targetLanguageTerm : String
  notes : String
  learned : Bool
  correctCounter : Nat
deriving DecidableEq, Repr

/-- The committed database: `Language` rows (code, name) and `Term` rows. -/
structure Db where
  languages : List (String × String)
  terms : List TermRec
deriving DecidableEq, Repr

/-- The `Term` record built in the loop body of `save_words_to_database`. -/
def mkTerm (target english : String) : TermRec :=
  ⟨"ar", english, target, "Imported from Duolingo Practice Hub", false, 0⟩

/-- `session.query(Language).filter(code == "ar").first()` followed by the
conditional `add` + immediate `commit` (lines 277-282): ensure the Arabic row
exists in the committed store. -/
def ensureLanguage (db : Db) : Db :=
  if db.languages.any (fun l => l.1 == "ar") then db
  else { db with languages := db.languages ++ [("ar", "Arabic")] }

/-- The duplicate query of the loop body (lines 285-293): with
`autoflush=False` it sees only committed `Term` rows. -/
def termExists (committed : List TermRec) (target english : String) : Bool :=
  committed.any (fun t =>
    t.languageCode == "ar" && t.englishTerm == english && t.targetLanguageTerm == target)

/-- The per-pair loop (lines 284-311): `pending` are the records added to the
session but not yet committed; `failAt = some k` makes the `k`-th iteration's
query/insert raise (modelling any database error there); on success, returns
the pending records and the `(added, skipped)` counters. -/
def saveLoop (committed : List TermRec) (pending : List TermRec)
    (added skipped idx : Nat) (failAt : Option Nat) :
    List Pair → Except Unit (List TermRec × Nat × Nat)
  | [] => .ok (pending, added, skipped)
  | (target, english) :: rest =>
      if failAt == some idx then .error ()
      else if termExists committed target english then
        saveLoop committed pending added (skipped + 1) (idx + 1) failAt rest
      else
        saveLoop committed (pending ++ [mkTerm target english]) (added + 1) skipped
          (idx + 1) failAt rest

/-- Result of a `save_words_to_database` call: the committed database
afterwards, the returned counters (or the propagated exception), and whether
the session was closed. -/
structure SaveOutcome where
  db : Db
  result : Except Unit (Nat × Nat)
  sessionClosed : Bool
deriving Repr

/-- `save_words_to_database` (scraping/duolingo_scraper.py lines 254-318): the
language row is ensured and committed first; the per-pair loop adds pending
records; `session.commit()` runs once, after the loop, so a raise inside the
loop reaches `finally: session.close()` with every pending record discarded. -/
def save_words_to_database (words : List Pair) (failAt : Option Nat) (db : Db) :
    SaveOutcome :=
  match saveLoop (ensureLanguage db).terms [] 0 0 0 failAt words with
  | .error _ => ⟨ensureLanguage db, .error (), true⟩
  | .ok (pending, a, s) =>
      ⟨{ ensureLanguage db with terms := (ensureLanguage db).terms ++ pending },
        .ok (a, s), true⟩

/-! ## Theorems

Helper lemmas first, then one theorem per claim (with its counterexample and
witness where applicable). -/

theorem mem_pairInsert {d : List Pair} {p : Pair} (kv : Pair) (h : p ∈ d) :
    p ∈ pairInsert d kv := by
  unfold pairInsert
  split
  · exact h
  · exact List.mem_append_left _ h

theorem mem_pairUpdate {p : Pair} :
    ∀ (delta d : List Pair), p ∈ d → p ∈ pairUpdate d delta
  | [], _, h => h
  | kv :: rest, d, h => mem_pairUpdate rest (pairInsert d kv) (mem_pairInsert kv h)

/-- Claim C1, counterexample.  In scraping/duolingo_scraper.py the accumulator
is keyed by the primary term alone: merging the extracted pair ("a", "two")
into an accumulator holding ("a", "one") replaces it, so the accumulator
neither keeps ("a", "one") nor can hold both pairs simultaneously. -/
theorem C1_counterexample :
    dictUpdate [("a", "one")] [("a", "two")] = [("a", "two")] ∧
      ("a", "one") ∉ dictUpdate [("a", "one")] [("a", "two")] := by
  decide

/-- Claim C1, amended.  The pair-keyed accumulator of
scripts/scrape_duolingo_words.py behaves as the claim states: merging never
removes an accumulated pair, and the accumulator can hold ("a", "one") and
("a", "two") simultaneously.  The primary-keyed accumulator of
scraping/duolingo_scraper.py does not (see the counterexample). -/
theorem C1_amended :
    (∀ (d delta : List Pair) (p : Pair), p ∈ d → p ∈ pairUpdate d delta) ∧
      ("a", "one") ∈ pairUpdate [] [("a", "one"), ("a", "two")] ∧
      ("a", "two") ∈ pairUpdate [] [("a", "one"), ("a", "two")] :=
  ⟨fun _ delta _ h => mem_pairUpdate delta _ h, by decide, by decide⟩

/-- Claim C1, witness for the amended theorem's hypothesis. -/
theorem C1_amended_witness :
    ("x", "y") ∈ pairUpdate [("x", "y")] [("a", "one")] :=
  C1_amended.1 [("x", "y")] [("a", "one")] ("x", "y") (by decide)

/-- Claim C2, counterexample.  In scraping/duolingo_scraper.py stagnation is
counted against the previous round's size, initialised to -1, so the first
round never counts as stagnant: a run whose four extraction rounds all add
zero pairs executes a 4th consecutive stagnant round and only then stalls,
instead of halting at the end of the 3rd. -/
theorem C2_counterexample :
    (scrape_duolingo_words 5 [⟨[], true⟩, ⟨[], true⟩, ⟨[], true⟩, ⟨[], true⟩]).rounds
        = 4 ∧
      (scrape_duolingo_words 5
          [⟨[], true⟩, ⟨[], true⟩, ⟨[], true⟩, ⟨[], true⟩]).reason = .stalled := by
  decide

/-- Claim C2, amended.  In scripts/scrape_duolingo_words.py the claim holds as
stated: from a fresh stagnation counter, 3 consecutive rounds adding zero new
pairs halt the loop STALLED at the end of the 3rd round, whether or not the
expected total is known, and no further round runs.  In
scraping/duolingo_scraper.py the same holds from any mid-run state (where
`last_count` equals the accumulator size and the driver acts in the first two
stagnant rounds); only a stagnant streak starting at the run's very first
round needs a 4th round (see the counterexample). -/
theorem C2_amended :
    (∀ (e : Int) (c : List Pair) (i1 i2 i3 : RoundInput) (rest : List RoundInput),
        pairUpdate c i1.visible = c → pairUpdate c i2.visible = c →
        pairUpdate c i3.visible = c →
        ¬(e ≠ -1 ∧ e ≤ (c.length : Int)) →
        script_main_loop e c 0 (i1 :: i2 :: i3 :: rest) =
          ⟨c, .stalled, 3, 3,
            ((if i3.loadedMore then 0 else 1) + (if i2.loadedMore then 0 else 1)) +
              (if i1.loadedMore then 0 else 1)⟩) ∧
    (∀ (N : Nat) (c : List Pair) (i1 i2 i3 : ScraperRound) (rest : List ScraperRound),
        dictUpdate c i1.visible = c → dictUpdate c i2.visible = c →
        dictUpdate c i3.visible = c →
        c.length < N → i1.clicked = true → i2.clicked = true →
        scrape_words_loop N c (c.length : Int) 0 (i1 :: i2 :: i3 :: rest) =
          ⟨c, .stalled, 3, 2⟩) := by
  constructor
  · intro e c i1 i2 i3 rest h1 h2 h3 hne
    simp only [script_main_loop, h1, h2, h3, if_neg hne, if_pos rfl]
    norm_num
  · intro N c i1 i2 i3 rest h1 h2 h3 hlt hc1 hc2
    simp only [scrape_words_loop, h1, h2, h3, if_neg (Nat.not_le_of_lt hlt),
      if_pos rfl, hc1, hc2]
    norm_num

/-- Claim C2, witness for the amended theorem's hypotheses. -/
theorem C2_amended_witness :
    script_main_loop (-1) [] 0 [⟨[], true⟩, ⟨[], true⟩, ⟨[], true⟩] =
        ⟨[], .stalled, 3, 3, 0⟩ ∧
      scrape_words_loop 1 [] 0 0 [⟨[], true⟩, ⟨[], true⟩, ⟨[], true⟩] =
        ⟨[], .stalled, 3, 2⟩ :=
  ⟨C2_amended.1 (-1) [] ⟨[], true⟩ ⟨[], true⟩ ⟨[], true⟩ [] rfl rfl rfl (by decide),
   C2_amended.2 1 [] ⟨[], true⟩ ⟨[], true⟩ ⟨[], true⟩ [] rfl rfl rfl
     (by decide) rfl rfl⟩

mutual
theorem textContent_mapClasses (g : List String → List String) :
    ∀ e : Elem, textContent (mapClassesE g e) = textContent e
  | .mk _ _ _ _ ch => by
      simp only [mapClassesE, textContent, textContentList_mapClasses g ch]
theorem textContentList_mapClasses (g : List String → List String) :
    ∀ l : ElemList, textContentList (mapClassesL g l) = textContentList l
  | .nil => rfl
  | .cons e es => by
      simp only [mapClassesL, textContentList, textContent_mapClasses g e,
        textContentList_mapClasses g es]
end

mutual
theorem findTagE_mapClasses (g : List String → List String) (tag : String) :
    ∀ e : Elem, findTagE tag (mapClassesE g e) = (findTagE tag e).map (mapClassesE g)
  | .mk t i cl x ch => by
      simp only [mapClassesE, findTagE]
      cases h : (t == tag)
      · simp only [Bool.false_eq_true, if_false, findTagL_mapClasses g tag ch]
      · simp [mapClassesE]
theorem findTagL_mapClasses (g : List String → List String) (tag : String) :
    ∀ l : ElemList, findTagL tag (mapClassesL g l) = (findTagL tag l).map (mapClassesE g)
  | .nil => rfl
  | .cons e es => by
      simp only [mapClassesL, findTagL, findTagE_mapClasses g tag e]
      cases findTagE tag e with
      | none => simpa using findTagL_mapClasses g tag es
      | some r => simp
end

theorem firstDesc_mapClasses (g : List String → List String) (tag : String)
    (e : Elem) :
    firstDesc tag (mapClassesE g e) = (firstDesc tag e).map (mapClassesE g) := by
  cases e
  simp only [mapClassesE, firstDesc, findTagL_mapClasses]

mutual
theorem matchE_mapClasses (g : List String → List String) :
    ∀ (s u : Bool) (e : Elem),
      matchSectionUlLiE s u (mapClassesE g e) =
        (matchSectionUlLiE s u e).map (mapClassesE g)
  | s, u, .mk t i cl x ch => by
      simp only [mapClassesE, matchSectionUlLiE, List.map_append,
        matchL_mapClasses g _ _ ch]
      cases h : (t == "li" && u) <;> simp [mapClassesE]
theorem matchL_mapClasses (g : List String → List String) :
    ∀ (s u : Bool) (l : ElemList),
      matchSectionUlLiL s u (mapClassesL g l) =
        (matchSectionUlLiL s u l).map (mapClassesE g)
  | _, _, .nil => rfl
  | s, u, .cons e es => by
      simp only [mapClassesL, matchSectionUlLiL, List.map_append,
        matchE_mapClasses g s u e, matchL_mapClasses g s u es]
end

theorem extractItemStep_mapClasses (g : List String → List String)
    (acc : List Pair) (li : Elem) :
    extractItemStep acc (mapClassesE g li) = extractItemStep acc li := by
  unfold extractItemStep
  rw [firstDesc_mapClasses, firstDesc_mapClasses]
  cases firstDesc "h3" li with
  | none => rfl
  | some h =>
      cases firstDesc "p" li with
      | none => rfl
      | some p => simp [textContent_mapClasses]

theorem extract_visible_words_mapClasses (g : List String → List String)
    (doc : Elem) :
    extract_visible_words (mapClassesE g doc) = extract_visible_words doc := by
  unfold extract_visible_words
  rw [matchE_mapClasses, List.foldl_map]
  have h : (fun (acc : List Pair) (li : Elem) => extractItemStep acc (mapClassesE g li)) =
      extractItemStep := by
    funext acc li
    exact extractItemStep_mapClasses g acc li
  rw [h]

theorem extract_visible_words_wrapped (cl : List String) (txt : String)
    (doc : Elem) :
    extract_visible_words (Elem.mk "div" none cl txt (.cons doc .nil)) =
      extract_visible_words doc := by
  unfold extract_visible_words
  simp [matchSectionUlLiE, matchSectionUlLiL]

/-- Claim C3, counterexample.  `_scrape_visible_words` selects containers by an
absolute indexed XPath: the very same word card is extracted when it sits at
the hard-coded path (`docAtPath`) and missed when it sits under the first
section instead of the second (`docMoved`), even though it still structurally
matches — as the structural extractor of the scripts module shows. -/
theorem C3_counterexample :
    scrape_visible_words docAtPath = [("hola", "hello")] ∧
      scrape_visible_words docMoved = [] ∧
      extract_visible_words docMoved = [("hola", "hello")] := by
  decide

/-- Claim C3, amended.  The structural extractor of
scripts/scrape_duolingo_words.py matches only by element tags and relative
nesting: its result is unchanged under arbitrary rewriting of every class
attribute, unchanged under wrapping the document in an extra `div` (so it does
not depend on the absolute position of the items), and it extracts the moved
card exactly as the in-place one.  The extractor of
scraping/duolingo_scraper.py instead depends on the container's absolute path
(see the counterexample). -/
theorem C3_amended :
    (∀ (g : List String → List String) (doc : Elem),
        extract_visible_words (mapClassesE g doc) = extract_visible_words doc) ∧
      (∀ (cl : List String) (txt : String) (doc : Elem),
        extract_visible_words (Elem.mk "div" none cl txt (.cons doc .nil)) =
          extract_visible_words doc) ∧
      extract_visible_words docAtPath = extract_visible_words docMoved :=
  ⟨extract_visible_words_mapClasses, extract_visible_words_wrapped, by decide⟩

theorem dropToDigit_eq_none :
    ∀ l : List Char, (∀ c ∈ l, c.isDigit = false) → dropToDigit l = none
  | [], _ => rfl
  | c :: rest, h => by
      simp only [dropToDigit]
      rw [if_neg (by simp [h c (List.mem_cons_self c rest)])]
      exact dropToDigit_eq_none rest (fun c' hc' => h c' (List.mem_cons_of_mem c hc'))

theorem script_main_loop_unknown_ne_done :
    ∀ (inputs : List RoundInput) (c : List Pair) (s : Nat),
      (script_main_loop (-1) c s inputs).reason ≠ .done
  | [], _, _ => by simp [script_main_loop]
  | inp :: rest, c, s => by
      simp only [script_main_loop]
      rw [if_neg (by simp)]
      split
      · split
        · simp
        · exact script_main_loop_unknown_ne_done rest _ _
      · split
        · simp
        · exact script_main_loop_unknown_ne_done rest _ _

/-- Claim C4, counterexample.  `_get_expected_word_count` of
scraping/duolingo_scraper.py raises `RuntimeError` — it does not return an
"unknown" value — both when no heading mentions "word" and when the matching
heading carries no integer. -/
theorem C4_counterexample :
    get_expected_word_count ["Practice Hub"] =
        .error
          "Could not find a header with the total number of words (e.g. '427 words')." ∧
      get_expected_word_count ["Words"] =
        .error
          "Could not find a header with the total number of words (e.g. '427 words')." :=
  ⟨rfl, rfl⟩

/-- Claim C4, amended.  The Expected-Count Reader of
scripts/scrape_duolingo_words.py behaves as the claim states: it returns -1
("unknown") when no heading contains "words" and when the matching heading
contains no digit, and a run with the unknown sentinel can never exit through
the count condition, so only the stagnation policy stops it.  The reader of
scraping/duolingo_scraper.py instead raises `RuntimeError` (see the
counterexample). -/
theorem C4_amended :
    (∀ headers : List String,
        (∀ t ∈ headers, containsLower t "words" = false) →
        get_expected_count headers = -1) ∧
      (∀ (headers : List String) (t : String),
        headers.find? (fun s => containsLower s "words") = some t →
        (∀ c ∈ (pyStrip t).toList, c.isDigit = false) →
        get_expected_count headers = -1) ∧
      (∀ (inputs : List RoundInput) (c : List Pair) (s : Nat),
        (script_main_loop (-1) c s inputs).reason ≠ .done) := by
  refine ⟨?_, ?_, script_main_loop_unknown_ne_done⟩
  · intro headers h
    unfold get_expected_count
    rw [List.find?_eq_none.mpr (fun t ht => by simp [h t ht])]
  · intro headers t hfind hnd
    have hp : parse_expected_count (pyStrip t) = -1 := by
      unfold parse_expected_count
      rw [dropToDigit_eq_none _ hnd]
    unfold get_expected_count
    rw [hfind]
    exact hp

/-- Claim C4, witness for the amended theorem's hypotheses. -/
theorem C4_amended_witness :
    get_expected_count ["Practice Hub"] = -1 ∧
      get_expected_count ["Words"] = -1 ∧
      (script_main_loop (-1) [] 0 [⟨[], false⟩]).reason ≠ .done :=
  ⟨C4_amended.1 ["Practice Hub"] (by decide),
   C4_amended.2.1 ["Words"] "Words" (by decide) (by decide),
   C4_amended.2.2 [⟨[], false⟩] [] 0⟩

/-- Claim C5, counterexample.  On the heading text "1,234 words" the reader of
scraping/duolingo_scraper.py extracts merely the first maximal digit run and
yields 1, not 1234. -/
theorem C5_counterexample :
    get_expected_word_count ["1,234 words"] = .ok 1 ∧ (1 : Nat) ≠ 1234 :=
  ⟨rfl, by decide⟩

/-- Claim C5, amended.  `parse_expected_count` of
scripts/scrape_duolingo_words.py extracts the first integer token with
thousands separators ignored, so "1,234 words" yields Expected Total 1234 (and
"Words" with no digits yields the unknown sentinel); the reader of
scraping/duolingo_scraper.py takes only the first maximal digit run and yields
1 on the same heading. -/
theorem C5_amended :
    parse_expected_count "1,234 words" = 1234 ∧
      get_expected_count ["1,234 words"] = 1234 ∧
      parse_expected_count "Words" = -1 ∧
      get_expected_word_count ["1,234 words"] = .ok 1 := by
  refine ⟨by decide, rfl, by decide, rfl⟩

/-- Claim C6.  In both modules, a round whose merge brings the accumulator to
at least the known expected total ends the loop with the DONE exit in that
same round, with zero driver invocations in that round — the Reveal-More
Driver is not invoked again for the remainder of the run. -/
theorem C6 :
    (∀ (e : Int) (c : List Pair) (s : Nat) (inp : RoundInput)
        (rest : List RoundInput),
        e ≠ -1 → e ≤ ((pairUpdate c inp.visible).length : Int) →
        script_main_loop e c s (inp :: rest) =
          ⟨pairUpdate c inp.visible, .done, 1, 0, 0⟩) ∧
      (∀ (N : Nat) (c : List Pair) (lc : Int) (st : Nat) (inp : ScraperRound)
        (rest : List ScraperRound),
        N ≤ (dictUpdate c inp.visible).length →
        scrape_words_loop N c lc st (inp :: rest) =
          ⟨dictUpdate c inp.visible, .done, 1, 0⟩) := by
  constructor
  · intro e c s inp rest hne hle
    simp only [script_main_loop, if_pos (And.intro hne hle)]
  · intro N c lc st inp rest hle
    simp only [scrape_words_loop, if_pos hle]

/-- Claim C6, witness for the theorem's hypotheses. -/
theorem C6_witness :
    script_main_loop 1 [] 0 [⟨[("a", "one")], true⟩] =
        ⟨[("a", "one")], .done, 1, 0, 0⟩ ∧
      scrape_words_loop 1 [] (-1) 0 [⟨[("a", "one")], true⟩] =
        ⟨[("a", "one")], .done, 1, 0⟩ :=
  ⟨C6.1 1 [] 0 ⟨[("a", "one")], true⟩ [] (by decide) (by decide),
   C6.2 1 [] (-1) 0 ⟨[("a", "one")], true⟩ [] (by decide)⟩

/-- Claim C7, counterexample.  In scripts/scrape_duolingo_words.py the extra
passive settle after a no-action report is performed even when the expected
total is known (here 5), contradicting "if and only if Expected Total is
unknown". -/
theorem C7_counterexample :
    (5 : Int) ≠ -1 ∧ (script_main 5 [⟨[("a", "one")], false⟩]).settles = 1 := by
  decide

/-- Claim C7, amended.  In the scripts controller a round in which the driver
reports no action performs exactly one extra passive settle regardless of
whether the expected total is known, and the settle changes nothing else about
the run — in particular it never resets the stagnation counter, so the
accumulator, exit reason, round count and driver-call count are identical to
the same round with an action taken.  (The scraping/duolingo_scraper.py
controller performs no courtesy settle at all; a no-action report ends its
loop, see claim C8.) -/
theorem C7_amended :
    ∀ (e : Int) (c : List Pair) (s : Nat) (v : List Pair) (rest : List RoundInput),
      ¬(e ≠ -1 ∧ e ≤ ((pairUpdate c v).length : Int)) →
      (script_main_loop e c s (⟨v, false⟩ :: rest)).settles =
          (script_main_loop e c s (⟨v, true⟩ :: rest)).settles + 1 ∧
        (script_main_loop e c s (⟨v, false⟩ :: rest)).reason =
          (script_main_loop e c s (⟨v, true⟩ :: rest)).reason ∧
        (script_main_loop e c s (⟨v, false⟩ :: rest)).collected =
          (script_main_loop e c s (⟨v, true⟩ :: rest)).collected ∧
        (script_main_loop e c s (⟨v, false⟩ :: rest)).rounds =
          (script_main_loop e c s (⟨v, true⟩ :: rest)).rounds ∧
        (script_main_loop e c s (⟨v, false⟩ :: rest)).driverCalls =
          (script_main_loop e c s (⟨v, true⟩ :: rest)).driverCalls := by
  intro e c s v rest h
  simp only [script_main_loop, if_neg h]
  by_cases h1 : (pairUpdate c v).length = c.length
  · by_cases h2 : 3 ≤ s + 1
    · simp [h1, h2]
    · simp [h1, h2]
  · simp [h1]

/-- Claim C7, witness for the amended theorem's hypothesis (expected total
known and not yet reached). -/
theorem C7_amended_witness :
    (script_main_loop 5 [] 0 [⟨[("a", "one")], false⟩]).settles =
      (script_main_loop 5 [] 0 [⟨[("a", "one")], true⟩]).settles + 1 :=
  (C7_amended 5 [] 0 [("a", "one")] [] (by decide)).1

theorem script_main_loop_ne_noAction :
    ∀ (inputs : List RoundInput) (e : Int) (c : List Pair) (s : Nat),
      (script_main_loop e c s inputs).reason ≠ .noAction
  | [], _, _, _ => by simp [script_main_loop]
  | inp :: rest, e, c, s => by
      simp only [script_main_loop]
      split
      · simp
      · split
        · split
          · simp
          · exact script_main_loop_ne_noAction rest _ _ _
        · split
          · simp
          · exact script_main_loop_ne_noAction rest _ _ _

/-- Claim C8, counterexample.  In scraping/duolingo_scraper.py a round in
which the reveal-more driver reports no action ends the run by itself: the
loop exits with the driver's no-action break, which is neither the DONE exit
(count reached) nor the STALLED exit (3 stagnant rounds). -/
theorem C8_counterexample :
    (scrape_duolingo_words 5 [⟨[("a", "one")], false⟩]).reason = .noAction ∧
      StopReason.noAction ≠ .done ∧ StopReason.noAction ≠ .stalled := by
  decide

/-- Claim C8, amended.  The scripts collection loop indeed exits only through
DONE or STALLED — no run of it can end with a no-action exit (a round whose
driver reports no action continues).  In scraping/duolingo_scraper.py,
however, a no-action report ends the loop immediately: a third exit besides
the two terminal states (see the counterexample). -/
theorem C8_amended :
    (∀ (inputs : List RoundInput) (e : Int) (c : List Pair) (s : Nat),
        (script_main_loop e c s inputs).reason ≠ .noAction) ∧
      (∀ (N : Nat) (c : List Pair) (lc : Int) (st : Nat) (inp : ScraperRound)
        (rest : List ScraperRound),
        inp.clicked = false →
        (dictUpdate c inp.visible).length < N →
        ((dictUpdate c inp.visible).length : Int) ≠ lc →
        (scrape_words_loop N c lc st (inp :: rest)).reason = .noAction ∧
          (scrape_words_loop N c lc st (inp :: rest)).rounds = 1) := by
  refine ⟨script_main_loop_ne_noAction, ?_⟩
  intro N c lc st inp rest hclick hlt hne
  simp only [scrape_words_loop, if_neg (Nat.not_le_of_lt hlt), if_neg hne, hclick]
  simp

/-- Claim C8, witness for the amended theorem's hypotheses. -/
theorem C8_amended_witness :
    (script_main_loop 5 [] 0 [⟨[("a", "one")], false⟩]).reason ≠ .noAction ∧
      (scrape_words_loop 5 [] (-1) 0 [⟨[("a", "one")], false⟩]).reason =
        .noAction :=
  ⟨C8_amended.1 [⟨[("a", "one")], false⟩] 5 [] 0,
   (C8_amended.2 5 [] (-1) 0 ⟨[("a", "one")], false⟩ [] rfl (by decide)
     (by decide)).1⟩

theorem char_eq_of_toNat_eq {a b : Char} (h : a.toNat = b.toNat) : a = b :=
  Char.ext (UInt32.toNat.inj h)

theorem strLtB_trans :
    ∀ a b c : List Char, strLtB a b = true → strLtB b c = true → strLtB a c = true
  | _, b, [], _, hbc => by
      cases b
      · simp [strLtB] at hbc
      · simp [strLtB] at hbc
  | [], b, _ :: _, _, _ => by simp [strLtB]
  | a :: as, b, c :: cs, hab, hbc => by
      match b with
      | [] => simp [strLtB] at hab
      | b :: bs =>
          simp only [strLtB] at hab hbc ⊢
          split at hab <;> split at hbc <;>
            rename_i h1 h2 <;>
            simp only [beq_iff_eq] at h1 h2 <;>
            split <;> rename_i h3 <;> simp only [beq_iff_eq] at h3 <;>
            first
              | exact strLtB_trans as bs cs hab hbc
              | (simp only [decide_eq_true_eq] at hab hbc ⊢; omega)

theorem strLtB_trichotomy :
    ∀ a b : List Char, strLtB a b = true ∨ a = b ∨ strLtB b a = true
  | [], [] => Or.inr (Or.inl rfl)
  | [], _ :: _ => Or.inl (by simp [strLtB])
  | _ :: _, [] => Or.inr (Or.inr (by simp [strLtB]))
  | a :: as, b :: bs => by
      rcases Nat.lt_trichotomy a.toNat b.toNat with h | h | h
      · exact Or.inl (by simp [strLtB, h, Nat.ne_of_lt h])
      · rcases strLtB_trichotomy as bs with h2 | h2 | h2
        · exact Or.inl (by simp [strLtB, h, h2])
        · exact Or.inr (Or.inl (by rw [char_eq_of_toNat_eq h, h2]))
        · exact Or.inr (Or.inr (by simp [strLtB, h.symm, h2]))
      · exact Or.inr (Or.inr (by simp [strLtB, h, Nat.ne_of_lt h]))

theorem pairLe_trans : ∀ p q r : Pair, pairLe p q → pairLe q r → pairLe p r := by
  intro p q r hpq hqr
  simp only [pairLe, pairLeB, Bool.or_eq_true, Bool.and_eq_true, beq_iff_eq]
    at hpq hqr ⊢
  rcases hpq with h1 | ⟨e1, h1⟩ <;> rcases hqr with h2 | ⟨e2, h2⟩
  · exact Or.inl (strLtB_trans _ _ _ h1 h2)
  · exact Or.inl (e2 ▸ h1)
  · exact Or.inl (e1 ▸ h2)
  · refine Or.inr ⟨e1.trans e2, ?_⟩
    rcases h1 with h1 | h1 <;> rcases h2 with h2 | h2
    · exact Or.inl (strLtB_trans _ _ _ h1 h2)
    · exact Or.inl (h2 ▸ h1)
    · exact Or.inl (h1 ▸ h2)
    · exact Or.inr (h1.trans h2)

theorem pairLe_total : ∀ p q : Pair, pairLe p q ∨ pairLe q p := by
  intro p q
  simp only [pairLe, pairLeB, Bool.or_eq_true, Bool.and_eq_true, beq_iff_eq]
  rcases strLtB_trichotomy p.1.toList q.1.toList with h | h | h
  · exact Or.inl (Or.inl h)
  · rcases strLtB_trichotomy p.2.toList q.2.toList with h2 | h2 | h2
    · exact Or.inl (Or.inr ⟨h, Or.inl h2⟩)
    · exact Or.inl (Or.inr ⟨h, Or.inr h2⟩)
    · exact Or.inr (Or.inr ⟨h.symm, Or.inl h2⟩)
  · exact Or.inr (Or.inl h)

/-- Claim C9.  Both flat-file writers emit the accumulator's pairs as a
permutation of the accumulator (hence exactly one record per accumulated pair,
and no duplicates when the accumulator has none), sorted ascending by the
tuple (primary term, secondary term); on the accumulator
{("b","two"), ("a","one"), ("a","two")} the rows come out in the stated
order. -/
theorem C9 :
    (∀ words : List Pair,
        List.Perm (save_words_to_file words) words ∧
          List.Sorted pairLe (save_words_to_file words) ∧
          write_output_rows words = save_words_to_file words ∧
          (words.Nodup → (save_words_to_file words).Nodup)) ∧
      write_output_rows [("b", "two"), ("a", "one"), ("a", "two")] =
        [("a", "one"), ("a", "two"), ("b", "two")] := by
  haveI : IsTrans Pair pairLe := ⟨pairLe_trans⟩
  haveI : IsTotal Pair pairLe := ⟨pairLe_total⟩
  refine ⟨fun words => ⟨?_, ?_, rfl, ?_⟩, by decide⟩
  · exact List.perm_insertionSort pairLe words
  · exact List.sorted_insertionSort pairLe words
  · intro hnd
    exact ((List.perm_insertionSort pairLe words).nodup_iff).mpr hnd

/-- Claim C9, witness for the Nodup hypothesis of the theorem. -/
theorem C9_witness : (save_words_to_file [("a", "one"), ("b", "two")]).Nodup :=
  (C9.1 [("a", "one"), ("b", "two")]).2.2.2 (by decide)

theorem ensureLanguage_terms (db : Db) : (ensureLanguage db).terms = db.terms := by
  unfold ensureLanguage
  split <;> rfl

theorem saveLoop_error (committed : List TermRec) :
    ∀ (words : List Pair) (pending : List TermRec) (added skipped idx k : Nat),
      idx ≤ k → k < idx + words.length →
      saveLoop committed pending added skipped idx (some k) words = .error ()
  | [], _, _, _, idx, k, hle, hlt => by simp at hlt; omega
  | (target, english) :: rest, pending, added, skipped, idx, k, hle, hlt => by
      simp only [saveLoop]
      by_cases hk : k = idx
      · rw [if_pos (by simp [hk])]
      · rw [if_neg (by simp [hk])]
        have h1 : idx + 1 ≤ k := by omega
        have h2 : k < (idx + 1) + rest.length := by
          simp only [List.length_cons] at hlt
          omega
        split
        · exact saveLoop_error committed rest pending added (skipped + 1) (idx + 1) k h1 h2
        · exact saveLoop_error committed rest (pending ++ [mkTerm target english])
            (added + 1) skipped (idx + 1) k h1 h2

/-- Claim C10.  All of a run's `Term` inserts are committed by the single
`session.commit()` after the per-pair loop: if any query or insert of that loop
raises (at any position `k` in the word list), no `Term` record from the run
is persisted — the committed term table is exactly what it was before the call
— the exception propagates, and the session is still closed; only the
language row, committed separately beforehand, may have been added. -/
theorem C10 :
    ∀ (words : List Pair) (db : Db) (k : Nat), k < words.length →
      (save_words_to_database words (some k) db).db.terms = db.terms ∧
        (save_words_to_database words (some k) db).db.languages =
          (ensureLanguage db).languages ∧
        (save_words_to_database words (some k) db).result = .error () ∧
        (save_words_to_database words (some k) db).sessionClosed = true := by
  intro words db k hk
  unfold save_words_to_database
  rw [saveLoop_error (ensureLanguage db).terms words [] 0 0 0 k (Nat.zero_le k)
    (by simpa using hk)]
  exact ⟨ensureLanguage_terms db, rfl, rfl, rfl⟩

/-- Claim C10, witness for the theorem's hypothesis. -/
theorem C10_witness :
    (save_words_to_database [("x", "y")] (some 0) ⟨[], []⟩).db.terms = [] ∧
      (save_words_to_database [("x", "y")] (some 0) ⟨[], []⟩).sessionClosed =
        true :=
  ⟨(C10 [("x", "y")] ⟨[], []⟩ 0 (by decide)).1,
   (C10 [("x", "y")] ⟨[], []⟩ 0 (by decide)).2.2.2⟩
